import Mathlib

/-!
Shallow embedding of `homework.py` (Telegram homework-status bot) and proofs of the
frozen specification claims.

The program polls an HTTP API, validates the JSON body, formats a status message and
relays it to a chat, looping forever with a fixed sleep. External effects (the HTTP
network and the Telegram delivery) are modelled as oracle inputs; everything the
Python code computes is embedded as total Lean functions, with exceptions as
`Except` values.
-/

/-- JSON-like values as produced by `response.json()` and consumed by the bot.
Numbers are modelled as integers (the API payloads the program touches are integer
timestamps and strings). -/
inductive JValue where
  | null : JValue
  | bool (b : Bool) : JValue
  | int (n : Int) : JValue
  | str (s : String) : JValue
  | list (xs : List JValue) : JValue
  | obj (fields : List (String × JValue)) : JValue

mutual
/-- Structural equality of JSON-like values, modelling the Python `==` the `in`
operator uses on lists and dict keys. -/
def jbeq : JValue → JValue → Bool
  | .null, .null => true
  | .bool a, .bool b => a == b
  | .int a, .int b => a == b
  | .str a, .str b => a == b
  | .list xs, .list ys => jbeqList xs ys
  | .obj fs, .obj gs => jbeqFields fs gs
  | _, _ => false

/-- Elementwise equality of JSON lists. -/
def jbeqList : List JValue → List JValue → Bool
  | [], [] => true
  | x :: xs, y :: ys => jbeq x y && jbeqList xs ys
  | _, _ => false

/-- Fieldwise equality of JSON objects. -/
def jbeqFields : List (String × JValue) → List (String × JValue) → Bool
  | [], [] => true
  | (k, v) :: fs, (l, w) :: gs => k == l && jbeq v w && jbeqFields fs gs
  | _, _ => false
end

instance : BEq JValue := ⟨jbeq⟩

mutual
/-- Python `repr` of a JSON-like value (used by f-string interpolation of lists and
dicts; Python renders strings with single quotes). -/
def pyRepr : JValue → String
  | .null => "None"
  | .bool true => "True"
  | .bool false => "False"
  | .int n => toString n
  | .str s => "\x27" ++ s ++ "\x27"
  | .list xs => "[" ++ String.intercalate ", " (pyReprList xs) ++ "]"
  | .obj fs => "\x7b" ++ String.intercalate ", " (pyReprFields fs) ++ "\x7d"

def pyReprList : List JValue → List String
  | [] => []
  | x :: xs => pyRepr x :: pyReprList xs

def pyReprFields : List (String × JValue) → List String
  | [] => []
  | (k, v) :: fs => ("\x27" ++ k ++ "\x27: " ++ pyRepr v) :: pyReprFields fs
end

/-- Python `str` of a JSON-like value (f-string interpolation: strings unquoted at
top level, everything else as `repr`). -/
def pyStr : JValue → String
  | .str s => s
  | v => pyRepr v

/-- The exceptions the program raises or meets, with their payloads kept structured
(the claims inspect the carried data; `message` below renders Python `str(error)`). -/
inductive BotError where
  | connectionError (cause : String) (paramsRepr : String) : BotError
  | invalidResponseCode (endpoint : String) (code : Nat) (reason : String) (text : String) : BotError
  | typeError (msg : String) : BotError
  | keyError (msg : String) : BotError
  | valueError (msg : String) : BotError
  | missingTokenError (missing : List String) : BotError
deriving DecidableEq

/-- RETRY_PERIOD constant (line 37). -/
def RETRY_PERIOD : Nat := 600

/-- ENDPOINT constant (line 38). -/
def ENDPOINT : String := "https://practicum.yandex.ru/api/user_api/homework_statuses/"

/-- HOMEWORK_VERDICTS table (lines 41-45), as an ordered association list. -/
def HOMEWORK_VERDICTS : List (String × String) :=
  [("approved", "Работа проверена: ревьюеру всё понравилось. Ура!"),
   ("reviewing", "Работа взята на проверку ревьюером."),
   ("rejected", "Работа проверена: у ревьюера есть замечания.")]

/-- HEADERS (line 39): the authorization header built from the PRACTICUM_TOKEN
environment value; a missing value interpolates as the Python string None. -/
def HEADERS (practicumToken : Option String) : JValue :=
  .obj [("Authorization", .str ("OAuth " ++ (match practicumToken with
    | some s => s
    | none => "None")))]

/-- Python `str(KeyError(m))` shows the repr of the argument, hence quotes; the other
exception classes render their message verbatim. -/
def BotError.message : BotError → String
  | .connectionError cause paramsRepr =>
      "Ошибка подключения: " ++ cause ++ ". Параметры запроса: " ++ paramsRepr
  | .invalidResponseCode endpoint code reason text =>
      "Эндпоинт " ++ endpoint ++ " недоступен. Код ответа: " ++ toString code ++
      ", Причина: " ++ reason ++ ", Текст: " ++ text
  | .typeError m => m
  | .keyError m => "\x27" ++ m ++ "\x27"
  | .valueError m => m
  | .missingTokenError missing =>
      "Отсутствуют обязательные переменные окружения: " ++
      pyRepr (.list (missing.map .str))

/-- Python truthiness of an optional environment string: absent or empty is falsy. -/
def tokenOk : Option String → Bool
  | none => false
  | some s => !s.isEmpty

/-- The `tokens` dict of check_tokens (lines 62-66), in source order. -/
def token_items (p t c : Option String) : List (String × Option String) :=
  [("PRACTICUM_TOKEN", p), ("TELEGRAM_TOKEN", t), ("TELEGRAM_CHAT_ID", c)]

/-- The `missing_tokens` comprehension of check_tokens (line 67). -/
def missing_tokens (p t c : Option String) : List String :=
  ((token_items p t c).filter (fun kv => !tokenOk kv.2)).map (fun kv => kv.1)

/-- check_tokens (lines 60-73): raises MissingTokenError naming the missing
environment variables, or returns normally. -/
def check_tokens (p t c : Option String) : Except BotError Unit :=
  if missing_tokens p t c = [] then .ok ()
  else .error (.missingTokenError (missing_tokens p t c))

/-- Outcome of `sys.exit` at startup (lines 152-156): exit status, the critically
logged diagnostic, and the string passed to sys.exit. Python `sys.exit(str)` exits
with status 1. -/
structure StartupExit where
  code : Nat
  logged : String
  exitMessage : String
deriving DecidableEq

/-- The startup phase of main (lines 152-156): on MissingTokenError the error is
logged critically and the process exits with a non-zero status. -/
def mainStartup (p t c : Option String) : Except StartupExit Unit :=
  match check_tokens p t c with
  | .error e => .error ⟨1, e.message, "Отсутствуют обязательные переменные окружения"⟩
  | .ok _ => .ok ()

/-- An HTTP response as seen through the requests library: status code, reason,
text, and the parsed JSON body. -/
structure HttpResponse where
  status_code : Nat
  reason : String
  text : String
  body : JValue

/-- The `request_params` dict (lines 89-93), rendered into connection-error text. -/
def request_params (practicumToken : Option String) (timestamp : JValue) : JValue :=
  .obj [("url", .str ENDPOINT),
        ("headers", HEADERS practicumToken),
        ("params", .obj [("from_date", timestamp)])]

/-- get_api_answer (lines 87-116). The network is an oracle: either a
RequestException (rendered as a string cause) or an HttpResponse. A raised
RequestException becomes a ConnectionError carrying the cause and the request
parameters; a non-200 status becomes an InvalidResponseCodeError carrying the
endpoint, status code, reason and text; otherwise the parsed body is returned.
Exactly one network sample is consumed: there is no retry inside this call. -/
def get_api_answer (practicumToken : Option String) (timestamp : JValue)
    (net : Except String HttpResponse) : Except BotError JValue :=
  match net with
  | .error err => .error (.connectionError err (pyStr (request_params practicumToken timestamp)))
  | .ok r =>
    if r.status_code ≠ 200 then
      .error (.invalidResponseCode ENDPOINT r.status_code r.reason r.text)
    else .ok r.body

/-- Predicate: the value is a JSON object (a Python dict). -/
def JValue.isObj : JValue → Bool
  | .obj _ => true
  | _ => false

/-- Predicate: the value is a JSON list. -/
def JValue.isList : JValue → Bool
  | .list _ => true
  | _ => false

/-- check_response (lines 119-130): a non-dict body is a TypeError, a missing
`homeworks` key is a KeyError, a non-list `homeworks` value is a TypeError;
otherwise the list is returned unchanged. -/
def check_response (response : JValue) : Except BotError (List JValue) :=
  match response with
  | .obj fields =>
    match fields.lookup "homeworks" with
    | none => .error (.keyError "Отсутствует ключ \"homeworks\"")
    | some (.list xs) => .ok xs
    | some _ => .error (.typeError "Homeworks не является списком")
  | _ => .error (.typeError "Ответ API не является словарём")

/-- Substring test, modelling the Python `in` operator on strings. -/
def hasSubstr (s pat : String) : Bool := (s.splitOn pat).length > 1

/-- Dict-membership lookup `HOMEWORK_VERDICTS[status]` for a JSON value used as a
key: only a string can match the string keys of the verdict table. -/
def verdictFor : JValue → Option String
  | .str s => HOMEWORK_VERDICTS.lookup s
  | _ => none

/-- parse_status (lines 133-147). On a dict record: a missing `homework_name` or
`status` key is a KeyError, a status outside the verdict table is a ValueError,
otherwise the formatted sentence is returned. On a non-dict record the Python
operators `in` and subscription raise runtime TypeErrors (after the membership
tests that do work on lists and strings), modelled here with their CPython
messages; an unhashable status (list or dict) likewise raises a TypeError at the
`status not in HOMEWORK_VERDICTS` test. -/
def parse_status (homework : JValue) : Except BotError String :=
  match homework with
  | .obj fields =>
    match fields.lookup "homework_name" with
    | none => .error (.keyError "Отсутствует ключ \"homework_name\" в ответе API")
    | some homework_name =>
      match fields.lookup "status" with
      | none => .error (.keyError "Отсутствует ключ \"status\" в ответе API")
      | some status =>
        match status with
        | .list _ => .error (.typeError "unhashable type: \x27list\x27")
        | .obj _ => .error (.typeError "unhashable type: \x27dict\x27")
        | _ =>
          match verdictFor status with
          | none => .error (.valueError ("Неожиданный статус работы: " ++ pyStr status))
          | some verdict =>
            .ok ("Изменился статус проверки работы \"" ++ pyStr homework_name ++
                 "\". " ++ verdict)
  | .list xs =>
    if xs.contains (.str "homework_name") = false then
      .error (.keyError "Отсутствует ключ \"homework_name\" в ответе API")
    else if xs.contains (.str "status") = false then
      .error (.keyError "Отсутствует ключ \"status\" в ответе API")
    else .error (.typeError "list indices must be integers or slices, not str")
  | .str s =>
    if hasSubstr s "homework_name" = false then
      .error (.keyError "Отсутствует ключ \"homework_name\" в ответе API")
    else if hasSubstr s "status" = false then
      .error (.keyError "Отсутствует ключ \"status\" в ответе API")
    else .error (.typeError "string indices must be integers")
  | .int _ => .error (.typeError "argument of type \x27int\x27 is not iterable")
  | .bool _ => .error (.typeError "argument of type \x27bool\x27 is not iterable")
  | .null => .error (.typeError "argument of type \x27NoneType\x27 is not iterable")

/-- send_message (lines 76-84): delivery goes to the external bot API, whose
outcome is an oracle input; every delivery exception is swallowed and reported as
False, success returns True. No retry of its own. -/
def send_message (deliveryOk : Bool) : Bool := deliveryOk

/-- The mutable state of the main loop (lines 159-160): the poll cursor
(`timestamp`, which `response.get` can in principle set to any JSON value) and the
remembered last sent message. -/
structure LoopState where
  timestamp : JValue
  last_status_message : Option String

/-- Python `dict.get(key, default)`; `response` is known to be a dict at the single
call site (line 178), after check_response has accepted it. -/
def dictGet (v : JValue) (key : String) (default : JValue) : JValue :=
  match v with
  | .obj fs => (fs.lookup key).getD default
  | _ => default

/-- The try-block body of one loop cycle (lines 163-178), up to but excluding the
exception handler: fetch, validate, skip on an empty list, format, de-duplicate,
attempt delivery, and on success advance both state variables. Returns the next
state and the list of messages handed to the notifier (at most one); errors are
returned for the handler. -/
def tryBody (practicumToken : Option String) (st : LoopState)
    (net : Except String HttpResponse) (sendOk : Bool) :
    Except BotError (LoopState × List String) :=
  match get_api_answer practicumToken st.timestamp net with
  | .error e => .error e
  | .ok response =>
    match check_response response with
    | .error e => .error e
    | .ok [] => .ok (st, [])
    | .ok (homework :: _) =>
      match parse_status homework with
      | .error e => .error e
      | .ok current_status_message =>
        if st.last_status_message = some current_status_message then .ok (st, [])
        else if send_message sendOk then
          .ok ({ timestamp := dictGet response "current_date" st.timestamp,
                 last_status_message := some current_status_message },
               [current_status_message])
        else .ok (st, [current_status_message])

/-- The except-branch of the loop (lines 180-186): format the failure message,
attempt delivery only when it differs from the last sent message, and remember it
only when delivery succeeds. The cursor is never touched here. -/
def handleError (st : LoopState) (sendOk : Bool) (e : BotError) :
    LoopState × List String :=
  let error_message := "Сбой в работе программы: " ++ e.message
  if st.last_status_message = some error_message then (st, [])
  else if send_message sendOk then
    ({ st with last_status_message := some error_message }, [error_message])
  else (st, [error_message])

/-- One full cycle of the main loop (lines 162-189): the try-body with every
exception caught by the handler, then the `finally` sleep of RETRY_PERIOD seconds.
Totality of this function is the non-propagation of exceptions; the third
component records the slept duration. -/
def runCycle (practicumToken : Option String) (st : LoopState)
    (net : Except String HttpResponse) (sendOk : Bool) :
    LoopState × List String × Nat :=
  match tryBody practicumToken st net sendOk with
  | .ok (st2, sent) => (st2, sent, RETRY_PERIOD)
  | .error e =>
    let p := handleError st sendOk e
    (p.1, p.2, RETRY_PERIOD)

/-! Sample concrete inputs used by witnesses and the counterexample. -/

/-- A homework record with status approved. -/
def hwApproved : JValue := .obj [("homework_name", .str "X"), ("status", .str "approved")]

/-- A 200 body with one approved homework and a current_date. -/
def bodyOne : JValue := .obj [("homeworks", .list [hwApproved]), ("current_date", .int 42)]

/-- A 200 body with an empty homeworks list and a current_date. -/
def bodyEmpty : JValue := .obj [("homeworks", .list []), ("current_date", .int 42)]

/-- A successful network sample delivering bodyOne. -/
def netOne : Except String HttpResponse := .ok ⟨200, "OK", "", bodyOne⟩

/-- A successful network sample delivering bodyEmpty. -/
def netEmpty : Except String HttpResponse := .ok ⟨200, "OK", "", bodyEmpty⟩

/-- The initial loop state with cursor 0 and no remembered message. -/
def st0 : LoopState := ⟨.int 0, none⟩

/-- The formatted approved sentence for homework X. -/
def msgApproved : String :=
  "Изменился статус проверки работы \"X\". Работа проверена: ревьюеру всё понравилось. Ура!"

/-! Helper lemmas about one loop cycle. -/

/-- Helper: every message the try-body hands to the notifier differs from the
remembered last sent message. -/
theorem tryBody_mem_ne (pt : Option String) (st : LoopState)
    (net : Except String HttpResponse) (s : Bool) (p : LoopState × List String)
    (m : String) (h : tryBody pt st net s = Except.ok p) (hm : m ∈ p.2) :
    st.last_status_message ≠ some m := by
  unfold tryBody at h
  split at h
  · exact absurd h (by simp)
  · split at h
    · exact absurd h (by simp)
    · cases h
      simp at hm
    · split at h
      · exact absurd h (by simp)
      · split at h
        · cases h
          simp at hm
        · split at h
          · cases h
            simp at hm
            simp [hm]
            intro hc
            simp_all
          · cases h
            simp at hm
            simp [hm]
            intro hc
            simp_all

/-- Helper: every message the error handler hands to the notifier differs from the
remembered last sent message. -/
theorem handleError_mem_ne (st : LoopState) (s : Bool) (e : BotError) (m : String)
    (hm : m ∈ (handleError st s e).2) :
    st.last_status_message ≠ some m := by
  unfold handleError send_message at hm
  by_cases hl : st.last_status_message = some ("Сбой в работе программы: " ++ e.message)
  · simp [hl] at hm
  · cases s <;> simp [hl] at hm <;> simpa [hm] using hl

/-- Helper: every message a cycle hands to the notifier differs from the remembered
last sent message. -/
theorem runCycle_mem_ne (pt : Option String) (st : LoopState)
    (net : Except String HttpResponse) (s : Bool) (m : String)
    (hm : m ∈ (runCycle pt st net s).2.1) :
    st.last_status_message ≠ some m := by
  unfold runCycle at hm
  split at hm
  · exact tryBody_mem_ne pt st net s _ m (by assumption) hm
  · exact handleError_mem_ne st s _ m hm

/-- Helper: when delivery succeeds, the message the try-body handed to the notifier
becomes the remembered last sent message. -/
theorem tryBody_true_last (pt : Option String) (st : LoopState)
    (net : Except String HttpResponse) (p : LoopState × List String)
    (m : String) (h : tryBody pt st net true = Except.ok p) (hm : m ∈ p.2) :
    p.1.last_status_message = some m := by
  unfold tryBody at h
  split at h
  · exact absurd h (by simp)
  · split at h
    · exact absurd h (by simp)
    · cases h
      simp at hm
    · split at h
      · exact absurd h (by simp)
      · split at h
        · cases h
          simp at hm
        · split at h
          · cases h
            simp at hm
            simp [hm]
          · simp_all [send_message]

/-- Helper: when delivery succeeds, the message the error handler handed to the
notifier becomes the remembered last sent message. -/
theorem handleError_true_last (st : LoopState) (e : BotError) (m : String)
    (hm : m ∈ (handleError st true e).2) :
    (handleError st true e).1.last_status_message = some m := by
  unfold handleError send_message at hm ⊢
  by_cases hl : st.last_status_message = some ("Сбой в работе программы: " ++ e.message)
  · simp [hl] at hm
  · simp [hl] at hm ⊢
    simp [hm]

/-- Helper: when delivery succeeds, the message a cycle handed to the notifier
becomes the remembered last sent message. -/
theorem runCycle_true_last (pt : Option String) (st : LoopState)
    (net : Except String HttpResponse) (m : String)
    (hm : m ∈ (runCycle pt st net true).2.1) :
    (runCycle pt st net true).1.last_status_message = some m := by
  unfold runCycle at hm ⊢
  split at hm
  · exact tryBody_true_last pt st net _ m (by assumption) hm
  · exact handleError_true_last st _ m hm

/-- Helper: a try-body that hands nothing to the notifier leaves the state
unchanged. -/
theorem tryBody_nil_state (pt : Option String) (st : LoopState)
    (net : Except String HttpResponse) (s : Bool) (p : LoopState × List String)
    (h : tryBody pt st net s = Except.ok p) (hnil : p.2 = []) : p.1 = st := by
  unfold tryBody at h
  split at h
  · exact absurd h (by simp)
  · split at h
    · exact absurd h (by simp)
    · cases h
      rfl
    · split at h
      · exact absurd h (by simp)
      · split at h
        · cases h
          rfl
        · split at h
          · cases h
            simp at hnil
          · cases h
            simp at hnil

/-- Helper: an error handler that hands nothing to the notifier leaves the state
unchanged. -/
theorem handleError_nil_state (st : LoopState) (s : Bool) (e : BotError)
    (hnil : (handleError st s e).2 = []) : (handleError st s e).1 = st := by
  unfold handleError send_message at hnil ⊢
  by_cases hl : st.last_status_message = some ("Сбой в работе программы: " ++ e.message)
  · simp [hl]
  · cases s <;> simp [hl] at hnil

/-- Helper: a cycle that hands nothing to the notifier leaves the state
unchanged. -/
theorem runCycle_nil_state (pt : Option String) (st : LoopState)
    (net : Except String HttpResponse) (s : Bool)
    (hnil : (runCycle pt st net s).2.1 = []) : (runCycle pt st net s).1 = st := by
  unfold runCycle at hnil ⊢
  split at hnil
  · exact tryBody_nil_state pt st net s _ (by assumption) hnil
  · exact handleError_nil_state st s _ hnil

/-- Helper: a try-body run against a failing notifier leaves the state
unchanged. -/
theorem tryBody_false_state (pt : Option String) (st : LoopState)
    (net : Except String HttpResponse) (p : LoopState × List String)
    (h : tryBody pt st net false = Except.ok p) : p.1 = st := by
  unfold tryBody at h
  split at h
  · exact absurd h (by simp)
  · split at h
    · exact absurd h (by simp)
    · cases h
      rfl
    · split at h
      · exact absurd h (by simp)
      · split at h
        · cases h
          rfl
        · split at h
          · simp_all [send_message]
          · cases h
            rfl

/-- Helper: the error handler run against a failing notifier leaves the state
unchanged. -/
theorem handleError_false_state (st : LoopState) (e : BotError) :
    (handleError st false e).1 = st := by
  unfold handleError send_message
  by_cases hl : st.last_status_message = some ("Сбой в работе программы: " ++ e.message)
  · simp [hl]
  · simp [hl]

/-- Helper: a cycle run against a failing notifier leaves the state unchanged. -/
theorem runCycle_false_state (pt : Option String) (st : LoopState)
    (net : Except String HttpResponse) :
    (runCycle pt st net false).1 = st := by
  unfold runCycle
  split
  · exact tryBody_false_state pt st net _ (by assumption)
  · exact handleError_false_state st _

/-- Helper: the error handler never touches the poll cursor. -/
theorem handleError_timestamp (st : LoopState) (s : Bool) (e : BotError) :
    (handleError st s e).1.timestamp = st.timestamp := by
  unfold handleError send_message
  by_cases hl : st.last_status_message = some ("Сбой в работе программы: " ++ e.message)
  · simp [hl]
  · cases s <;> simp [hl]

/-- Helper: a cycle whose try-body raised an exception keeps the previous poll
cursor. -/
theorem runCycle_error_timestamp (pt : Option String) (st : LoopState)
    (net : Except String HttpResponse) (s : Bool) (e : BotError)
    (h : tryBody pt st net s = Except.error e) :
    (runCycle pt st net s).1.timestamp = st.timestamp := by
  unfold runCycle
  split
  · simp_all
  · rename_i e2 he
    rw [h] at he
    cases he
    exact handleError_timestamp st s e

/-- Helper: every cycle ends by sleeping RETRY_PERIOD seconds. -/
theorem runCycle_sleep (pt : Option String) (st : LoopState)
    (net : Except String HttpResponse) (s : Bool) :
    (runCycle pt st net s).2.2 = RETRY_PERIOD := by
  unfold runCycle
  split <;> rfl

/-! The claim theorems. -/

/-- Claim C2: for every combination of the three credentials in which at least one
value is absent or empty, startup halts with a non-zero exit status and a diagnostic
naming exactly the missing credential names; when all three are non-empty, the token
check passes and the process does not exit. -/
theorem c2_token_check (p t c : Option String) :
    (tokenOk p = true ∧ tokenOk t = true ∧ tokenOk c = true →
      check_tokens p t c = Except.ok () ∧ mainStartup p t c = Except.ok ()) ∧
    (¬(tokenOk p = true ∧ tokenOk t = true ∧ tokenOk c = true) →
      check_tokens p t c =
        Except.error (BotError.missingTokenError (missing_tokens p t c)) ∧
      mainStartup p t c =
        Except.error ⟨1, (BotError.missingTokenError (missing_tokens p t c)).message,
          "Отсутствуют обязательные переменные окружения"⟩ ∧
      (1 : Nat) ≠ 0) ∧
    (∀ n : String, n ∈ missing_tokens p t c ↔
      ((n = "PRACTICUM_TOKEN" ∧ tokenOk p = false) ∨
       (n = "TELEGRAM_TOKEN" ∧ tokenOk t = false) ∨
       (n = "TELEGRAM_CHAT_ID" ∧ tokenOk c = false))) := by
  cases hp : tokenOk p <;> cases ht : tokenOk t <;> cases hc : tokenOk c <;>
    simp_all [check_tokens, mainStartup, missing_tokens, token_items]

/-- Claim C2 witness: with PRACTICUM_TOKEN absent and TELEGRAM_CHAT_ID empty the
check raises naming the missing ones; with all three non-empty startup passes. -/
theorem c2_witness :
    check_tokens none (some "x") (some "") =
      Except.error (BotError.missingTokenError (missing_tokens none (some "x") (some ""))) ∧
    mainStartup (some "a") (some "b") (some "c") = Except.ok () :=
  ⟨((c2_token_check none (some "x") (some "")).2.1 (by decide)).1,
   ((c2_token_check (some "a") (some "b") (some "c")).1 (by decide)).2⟩

/-- Claim C3: a response body that is not an object, or lacks the key homeworks, or
whose homeworks value is not a list, fails with a distinct identifiable error per
case; otherwise the homeworks list is returned unchanged, the empty list included. -/
theorem c3_check_response (response : JValue) :
    (response.isObj = false →
      check_response response =
        Except.error (BotError.typeError "Ответ API не является словарём")) ∧
    (∀ fields, response = JValue.obj fields →
      (fields.lookup "homeworks" = none →
        check_response response =
          Except.error (BotError.keyError "Отсутствует ключ \"homeworks\"")) ∧
      (∀ w, fields.lookup "homeworks" = some w → w.isList = false →
        check_response response =
          Except.error (BotError.typeError "Homeworks не является списком")) ∧
      (∀ xs, fields.lookup "homeworks" = some (JValue.list xs) →
        check_response response = Except.ok xs)) ∧
    (BotError.typeError "Ответ API не является словарём" ≠
       BotError.keyError "Отсутствует ключ \"homeworks\"" ∧
     BotError.typeError "Ответ API не является словарём" ≠
       BotError.typeError "Homeworks не является списком" ∧
     BotError.keyError "Отсутствует ключ \"homeworks\"" ≠
       BotError.typeError "Homeworks не является списком") := by
  refine ⟨?_, ?_, by decide⟩
  · intro h
    cases response <;> simp_all [check_response, JValue.isObj]
  · intro fields heq
    subst heq
    refine ⟨?_, ?_, ?_⟩
    · intro h
      simp [check_response, h]
    · intro w hw hnl
      cases w <;> simp_all [check_response, JValue.isList]
    · intro xs hxs
      simp [check_response, hxs]

/-- Claim C3 witness: concrete inputs for each of the four contract cases. -/
theorem c3_witness :
    check_response (JValue.int 3) =
      Except.error (BotError.typeError "Ответ API не является словарём") ∧
    check_response (JValue.obj []) =
      Except.error (BotError.keyError "Отсутствует ключ \"homeworks\"") ∧
    check_response (JValue.obj [("homeworks", JValue.int 7)]) =
      Except.error (BotError.typeError "Homeworks не является списком") ∧
    check_response bodyEmpty = Except.ok [] :=
  ⟨(c3_check_response (JValue.int 3)).1 rfl,
   ((c3_check_response (JValue.obj [])).2.1 _ rfl).1 rfl,
   ((c3_check_response (JValue.obj [("homeworks", JValue.int 7)])).2.1 _ rfl).2.1
     (JValue.int 7) rfl rfl,
   ((c3_check_response bodyEmpty).2.1 _ rfl).2.2 [] rfl⟩

/-- Claim C4: a record with homework_name X and status approved formats to exactly
the canonical approved sentence referencing X; analogously for reviewing and
rejected. -/
theorem c4_parse_status_valid (fields : List (String × JValue)) (name : String) :
    fields.lookup "homework_name" = some (JValue.str name) →
    ((fields.lookup "status" = some (JValue.str "approved") →
      parse_status (JValue.obj fields) =
        Except.ok ("Изменился статус проверки работы \"" ++ name ++
          "\". Работа проверена: ревьюеру всё понравилось. Ура!")) ∧
     (fields.lookup "status" = some (JValue.str "reviewing") →
      parse_status (JValue.obj fields) =
        Except.ok ("Изменился статус проверки работы \"" ++ name ++
          "\". Работа взята на проверку ревьюером.")) ∧
     (fields.lookup "status" = some (JValue.str "rejected") →
      parse_status (JValue.obj fields) =
        Except.ok ("Изменился статус проверки работы \"" ++ name ++
          "\". Работа проверена: у ревьюера есть замечания."))) := by
  intro h1
  refine ⟨?_, ?_, ?_⟩ <;> intro h2 <;>
    simp [parse_status, h1, h2, verdictFor, HOMEWORK_VERDICTS, List.lookup, pyStr] <;>
    (rw [String.append_assoc]; rfl)

/-- Claim C4 witness: the approved record for homework X formats to the canonical
approved sentence. -/
theorem c4_witness :
    parse_status (JValue.obj [("homework_name", JValue.str "X"),
        ("status", JValue.str "approved")]) =
      Except.ok ("Изменился статус проверки работы \"" ++ "X" ++
        "\". Работа проверена: ревьюеру всё понравилось. Ура!") :=
  ((c4_parse_status_valid [("homework_name", JValue.str "X"),
      ("status", JValue.str "approved")] "X") rfl).1 rfl

/-- Claim C5: a record missing homework_name or status fails with a missing-key
error, a status outside the three known codes fails with an unrecognized-value
error, and the two kinds are distinct. -/
theorem c5_parse_status_errors (fields : List (String × JValue)) (v : JValue)
    (s : String) :
    (fields.lookup "homework_name" = none →
      parse_status (JValue.obj fields) =
        Except.error (BotError.keyError "Отсутствует ключ \"homework_name\" в ответе API")) ∧
    (fields.lookup "homework_name" = some v →
      fields.lookup "status" = none →
      parse_status (JValue.obj fields) =
        Except.error (BotError.keyError "Отсутствует ключ \"status\" в ответе API")) ∧
    (fields.lookup "homework_name" = some v →
      fields.lookup "status" = some (JValue.str s) →
      s ≠ "approved" → s ≠ "reviewing" → s ≠ "rejected" →
      parse_status (JValue.obj fields) =
        Except.error (BotError.valueError ("Неожиданный статус работы: " ++ s))) ∧
    (∀ m1 m2 : String, BotError.keyError m1 ≠ BotError.valueError m2) := by
  refine ⟨?_, ?_, ?_, by intro m1 m2 h; cases h⟩
  · intro h
    simp [parse_status, h]
  · intro h1 h2
    simp [parse_status, h1, h2]
  · intro h1 h2 ha hr hj
    have hb1 : (s == "approved") = false := beq_eq_false_iff_ne.mpr ha
    have hb2 : (s == "reviewing") = false := beq_eq_false_iff_ne.mpr hr
    have hb3 : (s == "rejected") = false := beq_eq_false_iff_ne.mpr hj
    simp [parse_status, h1, h2, verdictFor, HOMEWORK_VERDICTS, List.lookup,
      hb1, hb2, hb3, pyStr]

/-- Claim C5 witness: concrete records for the missing-name, missing-status and
unknown-status cases. -/
theorem c5_witness :
    parse_status (JValue.obj []) =
      Except.error (BotError.keyError "Отсутствует ключ \"homework_name\" в ответе API") ∧
    parse_status (JValue.obj [("homework_name", JValue.str "X")]) =
      Except.error (BotError.keyError "Отсутствует ключ \"status\" в ответе API") ∧
    parse_status (JValue.obj [("homework_name", JValue.str "X"),
        ("status", JValue.str "draft")]) =
      Except.error (BotError.valueError ("Неожиданный статус работы: " ++ "draft")) :=
  ⟨(c5_parse_status_errors [] (JValue.str "X") "draft").1 rfl,
   (c5_parse_status_errors [("homework_name", JValue.str "X")]
      (JValue.str "X") "draft").2.1 rfl rfl,
   (c5_parse_status_errors [("homework_name", JValue.str "X"),
      ("status", JValue.str "draft")] (JValue.str "X") "draft").2.2.1 rfl rfl
     (by decide) (by decide) (by decide)⟩

/-- Claim C9: the fetcher maps a network-level failure to a connectivity error
carrying the underlying cause, a non-200 status to an invalid-response error
carrying the status code and the endpoint, and otherwise returns the parsed body;
no other error kind is produced, and exactly one network sample is consumed. -/
theorem c9_get_api_answer (pt : Option String) (t : JValue)
    (net : Except String HttpResponse) :
    (∀ cause, net = Except.error cause →
      get_api_answer pt t net =
        Except.error (BotError.connectionError cause (pyStr (request_params pt t)))) ∧
    (∀ r, net = Except.ok r → r.status_code ≠ 200 →
      get_api_answer pt t net =
        Except.error (BotError.invalidResponseCode ENDPOINT r.status_code r.reason r.text)) ∧
    (∀ r, net = Except.ok r → r.status_code = 200 →
      get_api_answer pt t net = Except.ok r.body) ∧
    (∀ e, get_api_answer pt t net = Except.error e →
      (∃ c pr, e = BotError.connectionError c pr) ∨
      (∃ ep co re te, e = BotError.invalidResponseCode ep co re te)) := by
  refine ⟨?_, ?_, ?_, ?_⟩
  · intro cause h
    subst h
    rfl
  · intro r h hne
    subst h
    simp [get_api_answer, hne]
  · intro r h hc
    subst h
    simp [get_api_answer, hc]
  · intro e h
    cases net with
    | error c =>
      simp [get_api_answer] at h
      exact Or.inl ⟨c, pyStr (request_params pt t), h.symm⟩
    | ok r =>
      by_cases hc : r.status_code = 200
      · simp [get_api_answer, hc] at h
      · simp [get_api_answer, hc] at h
        exact Or.inr ⟨ENDPOINT, r.status_code, r.reason, r.text, h.symm⟩

/-- Claim C9 witness: a failed request, a 404 response, and a clean 200 response. -/
theorem c9_witness :
    get_api_answer none (JValue.int 0) (Except.error "boom") =
      Except.error (BotError.connectionError "boom"
        (pyStr (request_params none (JValue.int 0)))) ∧
    get_api_answer none (JValue.int 0) (Except.ok ⟨404, "Not Found", "", JValue.null⟩) =
      Except.error (BotError.invalidResponseCode ENDPOINT 404 "Not Found" "") ∧
    get_api_answer none (JValue.int 0) (Except.ok ⟨200, "OK", "", bodyEmpty⟩) =
      Except.ok bodyEmpty :=
  ⟨(c9_get_api_answer none (JValue.int 0) (Except.error "boom")).1 "boom" rfl,
   (c9_get_api_answer none (JValue.int 0)
      (Except.ok ⟨404, "Not Found", "", JValue.null⟩)).2.1 _ rfl (by decide),
   (c9_get_api_answer none (JValue.int 0)
      (Except.ok ⟨200, "OK", "", bodyEmpty⟩)).2.2.1 _ rfl rfl⟩

/-- Claim C1 counterexample: a cycle whose fetch and validation both succeed
(status 200, homeworks present and a list) and whose response carries
current_date = 42 nevertheless leaves the poll cursor at its old value 0, because
the homeworks list is empty and the update on line 178 is only reached after a
successful delivery of a new status message. -/
theorem c1_counterexample :
    get_api_answer none (JValue.int 0) netEmpty = Except.ok bodyEmpty ∧
    check_response bodyEmpty = Except.ok [] ∧
    dictGet bodyEmpty "current_date" (JValue.int 0) = JValue.int 42 ∧
    st0.timestamp = JValue.int 0 ∧
    (runCycle none st0 netEmpty true).1.timestamp = JValue.int 0 ∧
    JValue.int 0 ≠ JValue.int 42 := by
  refine ⟨rfl, rfl, rfl, rfl, rfl, ?_⟩
  intro h
  injection h with h2
  exact absurd h2 (by decide)

/-- Claim C1 (amended): the poll cursor is set to the response value
current_date (or kept when that key is absent) only in a cycle whose fetch,
validation and formatting succeed, whose formatted message differs from the last
sent one, and whose delivery succeeds; in every other cycle — error cycles, empty
lists, duplicate messages, failed deliveries — the cursor keeps its previous
value. -/
theorem c1_cursor_amended (pt : Option String) (st : LoopState)
    (net : Except String HttpResponse) (s : Bool) :
    (∀ e, tryBody pt st net s = Except.error e →
      (runCycle pt st net s).1.timestamp = st.timestamp) ∧
    ((runCycle pt st net false).1.timestamp = st.timestamp) ∧
    ((runCycle pt st net s).2.1 = [] →
      (runCycle pt st net s).1.timestamp = st.timestamp) ∧
    (∀ r hw tl msg, net = Except.ok r → r.status_code = 200 →
      check_response r.body = Except.ok (hw :: tl) →
      parse_status hw = Except.ok msg →
      st.last_status_message ≠ some msg → s = true →
      (runCycle pt st net s).1.timestamp =
        dictGet r.body "current_date" st.timestamp) := by
  refine ⟨runCycle_error_timestamp pt st net s, ?_, ?_, ?_⟩
  · rw [runCycle_false_state pt st net]
  · intro hnil
    rw [runCycle_nil_state pt st net s hnil]
  · intro r hw tl msg hnet hcode hcr hps hlast hs
    subst hnet
    subst hs
    have htb : tryBody pt st (Except.ok r) true =
        Except.ok ({ timestamp := dictGet r.body "current_date" st.timestamp,
                     last_status_message := some msg }, [msg]) := by
      unfold tryBody get_api_answer
      simp [hcode, hcr, hps, hlast, send_message]
    unfold runCycle
    rw [htb]

/-- Claim C1 witness for the amended theorem: a cycle that fetches one new approved
homework and delivers it advances the cursor to current_date = 42. -/
theorem c1_witness :
    (runCycle none st0 netOne true).1.timestamp =
      dictGet bodyOne "current_date" st0.timestamp :=
  (c1_cursor_amended none st0 netOne true).2.2.2 ⟨200, "OK", "", bodyOne⟩
    hwApproved [] msgApproved rfl rfl rfl rfl (by simp [st0]) rfl

/-- Claim C6: a message equal to the remembered last-sent message is never handed
to the notifier, and after a cycle that successfully delivered a message, a
consecutive cycle computing the same message hands nothing equal to it to the
notifier again. -/
theorem c6_dedup (pt : Option String) (st : LoopState)
    (net1 net2 : Except String HttpResponse) (s s2 : Bool) (m : String) :
    (st.last_status_message = some m → m ∉ (runCycle pt st net1 s).2.1) ∧
    (m ∈ (runCycle pt st net1 true).2.1 →
      m ∉ (runCycle pt (runCycle pt st net1 true).1 net2 s2).2.1) := by
  constructor
  · intro hl hm
    exact runCycle_mem_ne pt st net1 s m hm hl
  · intro hm1 hm2
    exact runCycle_mem_ne pt _ net2 s2 m hm2 (runCycle_true_last pt st net1 m hm1)

/-- Claim C6 witness: after successfully delivering the approved message, a second
cycle fetching the same response does not hand the message to the notifier again. -/
theorem c6_witness :
    msgApproved ∉ (runCycle none (runCycle none st0 netOne true).1 netOne true).2.1 :=
  (c6_dedup none st0 netOne netOne true true msgApproved).2 (by decide)

/-- Claim C7: every exception of a cycle body is caught (the cycle function is
total and routes every try-body error through the handler instead of propagating
it), and every cycle — success or failure — sleeps exactly RETRY_PERIOD before the
next iteration. -/
theorem c7_loop_resilience (pt : Option String) (st : LoopState)
    (net : Except String HttpResponse) (s : Bool) :
    (runCycle pt st net s).2.2 = RETRY_PERIOD ∧
    (∀ e, tryBody pt st net s = Except.error e →
      runCycle pt st net s =
        ((handleError st s e).1, (handleError st s e).2, RETRY_PERIOD)) := by
  refine ⟨runCycle_sleep pt st net s, ?_⟩
  intro e h
  unfold runCycle
  rw [h]

/-- Claim C7 witness: a cycle hit by a connection error still returns normally,
hands the handled failure message on, and sleeps RETRY_PERIOD. -/
theorem c7_witness :
    (runCycle none st0 (Except.error "boom") true).2.2 = RETRY_PERIOD ∧
    runCycle none st0 (Except.error "boom") true =
      ((handleError st0 true (BotError.connectionError "boom"
          (pyStr (request_params none (JValue.int 0))))).1,
       (handleError st0 true (BotError.connectionError "boom"
          (pyStr (request_params none (JValue.int 0))))).2, RETRY_PERIOD) :=
  ⟨(c7_loop_resilience none st0 (Except.error "boom") true).1,
   (c7_loop_resilience none st0 (Except.error "boom") true).2
     (BotError.connectionError "boom" (pyStr (request_params none (JValue.int 0)))) rfl⟩

/-- Claim C8: a cycle whose validated homeworks list is empty sends nothing,
raises no error, leaves the state unchanged and proceeds directly to the sleep. -/
theorem c8_empty_no_send (pt : Option String) (st : LoopState) (s : Bool)
    (r : HttpResponse) (hcode : r.status_code = 200)
    (hempty : check_response r.body = Except.ok []) :
    tryBody pt st (Except.ok r) s = Except.ok (st, []) ∧
    runCycle pt st (Except.ok r) s = (st, [], RETRY_PERIOD) := by
  have htb : tryBody pt st (Except.ok r) s = Except.ok (st, []) := by
    unfold tryBody get_api_answer
    simp [hcode, hempty]
  refine ⟨htb, ?_⟩
  unfold runCycle
  rw [htb]

/-- Claim C8 witness: the empty-homeworks response produces no delivery attempt,
no error, and an unchanged state. -/
theorem c8_witness :
    tryBody none st0 netEmpty true = Except.ok (st0, []) ∧
    runCycle none st0 netEmpty true = (st0, [], RETRY_PERIOD) :=
  c8_empty_no_send none st0 true ⟨200, "OK", "", bodyEmpty⟩ rfl rfl

/-- Claim C10: the two loop-state variables change only in a cycle whose delivery
attempt succeeded; when delivery fails or is skipped the whole state is retained,
and an error cycle never advances the cursor. -/
theorem c10_state_atomicity (pt : Option String) (st : LoopState)
    (net : Except String HttpResponse) (s : Bool) :
    (s = false → (runCycle pt st net s).1 = st) ∧
    ((runCycle pt st net s).2.1 = [] → (runCycle pt st net s).1 = st) ∧
    (∀ e, tryBody pt st net s = Except.error e →
      (runCycle pt st net s).1.timestamp = st.timestamp) ∧
    ((runCycle pt st net s).1 ≠ st →
      s = true ∧ (runCycle pt st net s).2.1 ≠ []) := by
  refine ⟨?_, runCycle_nil_state pt st net s, runCycle_error_timestamp pt st net s, ?_⟩
  · intro hs
    subst hs
    exact runCycle_false_state pt st net
  · intro hne
    constructor
    · cases hs : s with
      | false =>
        subst hs
        exact absurd (runCycle_false_state pt st net) hne
      | true => rfl
    · intro hnil
      exact hne (runCycle_nil_state pt st net s hnil)

/-- Claim C10 witness: a failed delivery keeps the state; an empty fetch with no
delivery attempt keeps the state. -/
theorem c10_witness :
    (runCycle none st0 netOne false).1 = st0 ∧
    (runCycle none st0 netEmpty true).1 = st0 :=
  ⟨(c10_state_atomicity none st0 netOne false).1 rfl,
   (c10_state_atomicity none st0 netEmpty true).2.1 rfl⟩
